import Mathlib

/-!
# uvn: run a command inside a VPN session

A shallow embedding of `main.go`: the configuration loader, the argument
parser, the VPN process supervisor (`VPNManager`) and the session
orchestrator (`main`).

Modelling conventions.

* A Go `string` is a `List Char` (`Str`).  The text is taken to be valid
  UTF-8; every delimiter the program looks for (`\n`, `=`, `"`, `~`) is an
  ASCII byte, so byte offsets and character offsets cut a string at the same
  places.
* A Go function that can return an error or panic returns a `Result`.
* Calls into the operating system (home directory, file contents, pipes,
  process creation) are answered by an explicit environment record.
* Goroutines communicate through `upChan` only; their interleaving is an
  explicit list of events.
-/

namespace Uvn

/-- A Go string, as its sequence of characters. -/
abbrev Str := List Char

/-- Outcome of a Go call: a value, a returned `error`, or a run-time panic. -/
inductive Result (α : Type) where
  | ok (a : α)
  | error (msg : Str)
  | panic
  deriving DecidableEq, Repr

/-! ## String primitives of the Go standard library -/

/-- Go `unicode.IsSpace`, the set `strings.TrimSpace` trims. -/
def isSpace (c : Char) : Bool :=
  c = '\t' || c = '\n' || c.toNat = 0x0B || c.toNat = 0x0C || c = '\r' || c = ' ' ||
  c.toNat = 0x85 || c.toNat = 0xA0 || c.toNat = 0x1680 ||
  (0x2000 ≤ c.toNat && c.toNat ≤ 0x200A) ||
  c.toNat = 0x2028 || c.toNat = 0x2029 || c.toNat = 0x202F || c.toNat = 0x205F ||
  c.toNat = 0x3000

/-- Go `strings.TrimSpace`. -/
def TrimSpace (s : Str) : Str :=
  (s.dropWhile isSpace).rdropWhile isSpace

/-- Go `strings.Split(s, "\n")`. -/
def SplitLines : Str → List Str
  | [] => [[]]
  | c :: cs =>
    if c = '\n' then [] :: SplitLines cs
    else
      match SplitLines cs with
      | [] => [[c]]
      | l :: ls => (c :: l) :: ls

/-- Go `strings.Index(s, string(c))` for a one-byte needle: the offset of the
first occurrence, or `-1`. -/
def Index (s : Str) (c : Char) : Int :=
  if c ∈ s then (s.indexOf c : Nat) else -1

/-- Go slice expression `s[lo:hi]`; `none` is the run-time panic
"slice bounds out of range". -/
def slice (s : Str) (lo hi : Nat) : Option Str :=
  if lo ≤ hi ∧ hi ≤ s.length then some ((s.drop lo).take (hi - lo)) else none

/-- Go `strings.HasPrefix(s, string(c))`. -/
def HasPrefix (s : Str) (c : Char) : Bool := s.head? = some c

/-- Go `strings.HasSuffix(s, string(c))`. -/
def HasSuffix (s : Str) (c : Char) : Bool := s.getLast? = some c

/-- Go `strings.Replace(s, string(old), new, 1)`: the first occurrence only. -/
def ReplaceFirst (s : Str) (old : Char) (new : Str) : Str :=
  match s with
  | [] => []
  | c :: cs => if c = old then new ++ cs else c :: ReplaceFirst cs old new

/-- Go `strings.Contains(s, sub)`. -/
def Contains (s sub : Str) : Bool :=
  match s with
  | [] => sub.isEmpty
  | c :: cs => sub.isPrefixOf (c :: cs) || Contains cs sub

/-- Decimal rendering of `%d`. -/
def fmtInt (n : Nat) : Str := Nat.toDigits 10 n

/-! ## Configuration loader -/

def EMPTY_STRING : Str := "<empty>".toList

def vpnFilePathConfigKey : Str := "vpn_file_path".toList

def vpnAuthFilePathConfigKey : Str := "vpn_auth_file_path".toList

structure UserConfigurations where
  vpnPath : Str
  vpnAuthFilePath : Str
  deriving DecidableEq, Repr

/-- What the operating system answers to `LoadUserConfigurations`. -/
structure ConfigEnv where
  /-- The value of `userConfigurationPath`. -/
  userConfigurationPath : Str
  /-- Result of `os.UserHomeDir()`. -/
  userHomeDir : Except Str Str
  /-- Result of `doesPathExists(userConfigurationPath)`. -/
  pathExists : Except Str Bool
  /-- Result of `os.ReadFile(userConfigurationPath)`. -/
  readFile : Except Str Str

/-- One iteration of the line loop of `LoadUserConfigurations` (lines 84-126):
`ok` is the record after the iteration (`continue` or fall-through), `error`
is the `return nil, fmt.Errorf(...)`, `panic` a slice out of range. -/
def lineStep (userHomeDir : Str) (configs : UserConfigurations) (index : Nat)
    (line : Str) : Result UserConfigurations :=
  let lineNumber := index + 1
  let line := TrimSpace line
  if TrimSpace line = [] then .ok configs
  else
    let index : Int := Index line '='
    if index < 0 then
      .error ("line ".toList ++ fmtInt lineNumber ++ ": invalid config line: ".toList ++ line)
    else
      match slice line 0 index.toNat with
      | none => .panic
      | some head =>
        let key := TrimSpace head
        if key = [] then
          .error ("line ".toList ++ fmtInt lineNumber ++ ": empty key".toList)
        else if index + 1 ≥ (line.length : Int) then
          .error ("line ".toList ++ fmtInt lineNumber ++ ": ".toList ++ key ++
            " does not have a value".toList)
        else
          match slice line (index + 1).toNat line.length with
          | none => .panic
          | some tail =>
            let value := TrimSpace tail
            let stripped : Option Str :=
              if HasPrefix value '"' && HasSuffix value '"' then
                slice value 1 (value.length - 1)
              else some value
            match stripped with
            | none => .panic
            | some value =>
              if value = [] then
                .error ("line ".toList ++ fmtInt lineNumber ++ ": ".toList ++ key ++
                  " does not have a value".toList)
              else
                let value :=
                  if key = vpnFilePathConfigKey ∨ key = vpnAuthFilePathConfigKey then
                    ReplaceFirst value '~' userHomeDir
                  else value
                if key = vpnFilePathConfigKey then
                  .ok { configs with vpnPath := value }
                else if key = vpnAuthFilePathConfigKey then
                  .ok { configs with vpnAuthFilePath := value }
                else .ok configs

/-- The `for index, line := range lines` loop of `LoadUserConfigurations`,
from position `index` on. -/
def lineLoop (userHomeDir : Str) (configs : UserConfigurations) (index : Nat) :
    List Str → Result UserConfigurations
  | [] => .ok configs
  | line :: rest =>
    match lineStep userHomeDir configs index line with
    | .ok configs => lineLoop userHomeDir configs (index + 1) rest
    | .error msg => .error msg
    | .panic => .panic

/-- The part of `LoadUserConfigurations` after the file was read (lines 76-133). -/
def loadFromData (userHomeDir data : Str) : Result UserConfigurations :=
  let lines := SplitLines data
  let configs : UserConfigurations :=
    { vpnPath := EMPTY_STRING, vpnAuthFilePath := EMPTY_STRING }
  match lineLoop userHomeDir configs 0 lines with
  | .ok configs =>
    if configs.vpnPath = EMPTY_STRING then
      .error ("missing ".toList ++ vpnFilePathConfigKey ++ " configuration".toList)
    else .ok configs
  | .error msg => .error msg
  | .panic => .panic

/-- Go `LoadUserConfigurations`. -/
def LoadUserConfigurations (env : ConfigEnv) : Result UserConfigurations :=
  match env.userHomeDir with
  | .error err => .error err
  | .ok userHomeDir =>
    match env.pathExists with
    | .error err => .error err
    | .ok false =>
      .error ("please create a config file at ".toList ++ env.userConfigurationPath ++
        " and add respective configurations. see --help for more details".toList)
    | .ok true =>
      match env.readFile with
      | .error err => .error err
      | .ok data => loadFromData userHomeDir data

/-- The environment in which the configuration file is present with content
`data` and the home directory resolves to `home`. -/
def fileEnv (home data : Str) : ConfigEnv :=
  { userConfigurationPath := home ++ "/.uvn.conf".toList
    userHomeDir := .ok home
    pathExists := .ok true
    readFile := .ok data }

/-! ## The configuration format in the words of the specification

"newline-delimited `key = value` pairs; blank lines ignored; values may be
quoted with double quotes (quotes stripped)".  These definitions follow the
text of the specification; the theorems compare `lineStep` with them. -/

/-- The key of a configuration line: the text before its first `=`, trimmed. -/
def lineKey (line : Str) : Str :=
  TrimSpace ((TrimSpace line).take ((TrimSpace line).indexOf '='))

/-- The text after the first `=` of a configuration line, trimmed. -/
def lineRawValue (line : Str) : Str :=
  TrimSpace ((TrimSpace line).drop ((TrimSpace line).indexOf '=' + 1))

/-- A value with its pair of surrounding double quotes stripped. -/
def unquote (value : Str) : Str :=
  if 2 ≤ value.length ∧ HasPrefix value '"' = true ∧ HasSuffix value '"' = true then
    (value.drop 1).take (value.length - 2)
  else value

/-- The value of a configuration line: trimmed, surrounding quotes stripped. -/
def lineValue (line : Str) : Str := unquote (lineRawValue line)

/-- A malformed line: not blank, and without `=`, or with an empty key, or
with an empty value. -/
def Malformed (line : Str) : Prop :=
  TrimSpace line ≠ [] ∧
    ('=' ∉ TrimSpace line ∨ lineKey line = [] ∨ lineValue line = [])

/-- Storing `value` under `key`: the two path-valued keys get the home
directory for `~`, other keys are ignored. -/
def assign (userHomeDir : Str) (configs : UserConfigurations) (key value : Str) :
    UserConfigurations :=
  if key = vpnFilePathConfigKey then
    { configs with vpnPath := ReplaceFirst value '~' userHomeDir }
  else if key = vpnAuthFilePathConfigKey then
    { configs with vpnAuthFilePath := ReplaceFirst value '~' userHomeDir }
  else configs

/-- The effect of one configuration line, by cases on its key and value;
the case of a value that is a lone double quote is the one in which
`lineStep` slices out of range. -/
def lineSpec (userHomeDir : Str) (configs : UserConfigurations) (index : Nat)
    (line : Str) : Result UserConfigurations :=
  if TrimSpace line = [] then .ok configs
  else if '=' ∉ TrimSpace line then
    .error ("line ".toList ++ fmtInt (index + 1) ++ ": invalid config line: ".toList ++
      TrimSpace line)
  else if lineKey line = [] then
    .error ("line ".toList ++ fmtInt (index + 1) ++ ": empty key".toList)
  else if lineRawValue line = ['"'] then .panic
  else if lineValue line = [] then
    .error ("line ".toList ++ fmtInt (index + 1) ++ ": ".toList ++ lineKey line ++
      " does not have a value".toList)
  else .ok (assign userHomeDir configs (lineKey line) (lineValue line))

/-- Expansion of a leading `~` to the home directory, in the words of the
specification: a value that does not start with `~` is left as it is. -/
def expandHome (userHomeDir value : Str) : Str :=
  match value with
  | '~' :: rest => userHomeDir ++ rest
  | _ => value

/-! ## Command-line arguments -/

structure Arguments where
  input : List Str
  programName : Str
  verbose : Bool
  deriving DecidableEq, Repr

/-- What the program does that can be observed from outside, in order. -/
inductive Action where
  /-- The call `Usage(programName)`. -/
  | printUsage (programName : Str)
  /-- The line `fmt.Fprintln(os.Stdout, VERSION)`. -/
  | printVersion
  /-- A write to standard output. -/
  | printOut (msg : Str)
  /-- A write to standard error. -/
  | printErr (msg : Str)
  /-- The call `vpn.Start`, with the argument vector it builds. -/
  | vpnStart (argv : List Str)
  /-- The call `vpn.WaitUntilUp`. -/
  | vpnWaitUntilUp
  /-- The call `vpn.Stop`. -/
  | vpnStop
  /-- The call `cmd.Start()` that launches the wrapped command. -/
  | cmdStart (argv : List Str)
  /-- The call `cmd.Wait()` on the wrapped command. -/
  | cmdWait
  deriving DecidableEq, Repr

/-- How `ParseArguments` ends: it returns, calls `os.Exit`, or panics. -/
inductive ParseOutcome where
  | returned (arguments : Arguments)
  | exited (code : Nat) (printed : Action)
  | panicked
  deriving DecidableEq, Repr

/-- The `for arg != nil` loop of `ParseArguments`; the list holds the
elements `shift` has not handed out yet. -/
def parseLoop (arguments : Arguments) : List Str → ParseOutcome
  | [] => .returned arguments
  | arg :: rest =>
    if arguments.input.length = 0 then
      if arg = "-h".toList ∨ arg = "--help".toList then
        .exited 0 (.printUsage arguments.programName)
      else if arg = "-v".toList ∨ arg = "--verbose".toList then
        parseLoop { arguments with verbose := true } rest
      else if arg = "--version".toList then
        .exited 0 .printVersion
      else
        parseLoop { arguments with input := arguments.input ++ [arg] } rest
    else
      parseLoop { arguments with input := arguments.input ++ [arg] } rest

/-- Go `ParseArguments`, on `os.Args`. -/
def ParseArguments (args : List Str) : ParseOutcome :=
  match args with
  | [] => .panicked
  | programName :: rest =>
    parseLoop { input := [], verbose := false, programName := programName } rest

/-! ## Channels -/

/-- A Go `chan bool`: the buffered values, the capacity, and whether it was
closed. -/
structure Chan where
  buf : List Bool
  cap : Nat
  closed : Bool
  deriving DecidableEq, Repr

/-- Go `make(chan bool, cap)`. -/
def Chan.make (cap : Nat) : Chan := { buf := [], cap := cap, closed := false }

/-- Result of a send `ch <- v` with no receiver waiting. -/
inductive SendOutcome where
  /-- The value went into the buffer. -/
  | sent (ch : Chan)
  /-- The buffer is full: the sender blocks. -/
  | blocks
  /-- The channel is closed: "send on closed channel". -/
  | panics
  deriving DecidableEq, Repr

def Chan.send (ch : Chan) (v : Bool) : SendOutcome :=
  if ch.closed then .panics
  else if ch.buf.length < ch.cap then .sent { ch with buf := ch.buf ++ [v] }
  else .blocks

/-- A receive `<-ch`: a buffered value if there is one; on a closed and
drained channel the zero value, at once; `none` when the receiver has to
wait. -/
def Chan.recv (ch : Chan) : Option (Bool × Chan) :=
  match ch.buf with
  | v :: rest => some (v, { ch with buf := rest })
  | [] => if ch.closed then some (false, ch) else none

/-- Go `close(ch)`. -/
def Chan.close (ch : Chan) : Chan := { ch with closed := true }

/-! ## VPN process supervisor -/

/-- An `exec.Cmd`: its argument vector and whether `Process` is set. -/
structure Cmd where
  args : List Str
  process : Bool
  deriving DecidableEq, Repr

/-- The fields of `VPNManager` the program reads: `cmd` (nil until `Start`),
whether `cancel` is set, the readiness channel, the arguments. -/
structure VPNManager where
  cmd : Option Cmd
  cancel : Bool
  upChan : Chan
  arguments : Arguments
  deriving DecidableEq, Repr

def NewVPNManager (arguments : Arguments) : VPNManager :=
  { cmd := none, cancel := false, upChan := Chan.make 1, arguments := arguments }

/-- What the operating system answers while a process is set up. -/
structure SpawnEnv where
  stdoutPipeErr : Option Str
  stderrPipeErr : Option Str
  startErr : Option Str
  deriving DecidableEq, Repr

/-- The argument vector `Start` hands to `exec.CommandContext(ctx, "sudo",
command...)` (lines 144-159). -/
def startArgv (userConfigurations : UserConfigurations) : List Str :=
  let command : List Str := []
  let command := command ++ ["openvpn".toList]
  let command := command ++ ["--config".toList]
  let command := command ++ [userConfigurations.vpnPath]
  let command :=
    if userConfigurations.vpnAuthFilePath ≠ EMPTY_STRING then
      (command ++ ["--auth-user-pass".toList]) ++ [userConfigurations.vpnAuthFilePath]
    else command
  "sudo".toList :: command

/-- Go `VPNManager.Start`: the manager afterwards and the returned error.
The two goroutines it starts on success are `MonitorEvent` below. -/
def VPNManager.Start (v : VPNManager) (userConfigurations : UserConfigurations)
    (env : SpawnEnv) : VPNManager × Option Str :=
  let v := { v with cancel := true }
  let v := { v with cmd := some { args := startArgv userConfigurations, process := false } }
  match env.stdoutPipeErr with
  | some err => (v, some err)
  | none =>
    match env.stderrPipeErr with
    | some err => (v, some err)
    | none =>
      match env.startErr with
      | some err => (v, some err)
      | none =>
        ({ v with cmd := some { args := startArgv userConfigurations, process := true } }, none)

/-- Go `VPNManager.Stop`; `killErr` is what `Process.Kill()` returns when it
is called.  `ok ()` is the `nil` return, `panic` the nil-pointer dereference
of `v.cmd.Process` on a nil `v.cmd`.  The guarded call `v.cancel()` comes
first and has no part in what `Stop` returns. -/
def VPNManager.Stop (v : VPNManager) (killErr : Option Str) : Result Unit :=
  match v.cmd with
  | none => .panic
  | some cmd =>
    if cmd.process then
      match killErr with
      | some err => .error err
      | none => .ok ()
    else .ok ()

def readyMarker : Str := "Initialization Sequence Completed".toList

/-- What the two goroutines started by `Start` can do before the timer of
`WaitUntilUp` fires. -/
inductive MonitorEvent where
  /-- The scanner of `monitorOutput` hands out the next standard-output line. -/
  | stdoutLine (line : Str)
  /-- The reaper: `v.cmd.Wait()` returned, `close(v.upChan)` runs. -/
  | processExit
  deriving DecidableEq, Repr

/-- Where the `monitorOutput` goroutine is. -/
inductive MonitorState where
  | scanning
  | blockedOnSend
  | panicked
  deriving DecidableEq, Repr

/-- The supervisor's goroutines around `upChan`. -/
structure Sys where
  upChan : Chan
  monitor : MonitorState
  /-- Number of sends `v.upChan <- true` that completed. -/
  sends : Nat
  /-- Result of `WaitUntilUp` once its `select` has picked the receive case. -/
  waiter : Option Bool
  deriving DecidableEq, Repr

/-- The body of the `for stdout.Scan()` loop of `monitorOutput` for one line
(lines 192-200), on the channel. -/
def monitorLine (s : Sys) (line : Str) : Sys :=
  match s.monitor with
  | .scanning =>
    if Contains line readyMarker then
      match s.upChan.send true with
      | .sent ch => { s with upChan := ch, sends := s.sends + 1 }
      | .blocks => { s with monitor := .blockedOnSend }
      | .panics => { s with monitor := .panicked }
    else s
  | _ => s

/-- The reaper's `close(v.upChan)`; a sender blocked on the channel panics. -/
def reap (s : Sys) : Sys :=
  { s with
    upChan := s.upChan.close
    monitor := if s.monitor = .blockedOnSend then .panicked else s.monitor }

/-- The `select` of `WaitUntilUp` (lines 213-218): while it has not returned,
it takes the case `<-v.upChan` as soon as a receive can proceed, and returns
true. -/
def selectRecv (s : Sys) : Sys :=
  match s.waiter with
  | some _ => s
  | none =>
    match s.upChan.recv with
    | some (_, ch) => { s with upChan := ch, waiter := some true }
    | none => s

def sysStep (s : Sys) (e : MonitorEvent) : Sys :=
  match e with
  | .stdoutLine line => selectRecv (monitorLine s line)
  | .processExit => selectRecv (reap s)

/-- The goroutines right after a successful `Start`, `WaitUntilUp` pending. -/
def Sys.init (v : VPNManager) : Sys :=
  { upChan := v.upChan, monitor := .scanning, sends := 0, waiter := none }

/-- The system after `events`, all of them before the timer fires. -/
def sysRun (v : VPNManager) (events : List MonitorEvent) : Sys :=
  events.foldl sysStep (selectRecv (Sys.init v))

/-- Go `VPNManager.WaitUntilUp(timeout)`, where `events` is what the
goroutines do before `timeout` elapses: true when the receive case was taken,
false when the timer case `<-time.After(timeout)` is. -/
def VPNManager.WaitUntilUp (v : VPNManager) (events : List MonitorEvent) : Bool :=
  match (sysRun v events).waiter with
  | some r => r
  | none => false

/-! ## Session orchestrator -/

/-- What the outside world answers during one run of `main`. -/
structure MainEnv where
  /-- The value of `os.Args`. -/
  args : List Str
  config : ConfigEnv
  /-- Pipe set-up and process creation of the VPN process. -/
  vpnSpawn : SpawnEnv
  /-- What the VPN goroutines do before the 15 seconds elapse. -/
  vpnEvents : List MonitorEvent
  /-- Result of `Process.Kill()` on the VPN process. -/
  killErr : Option Str
  /-- Result of `os.Getwd()`. -/
  getwd : Except Str Str
  /-- Pipe set-up and process creation of the wrapped command. -/
  cmdSpawn : SpawnEnv

/-- How a run ends: `os.Exit(code)` or return from `main` (status 0), or a
panic. -/
inductive Exit where
  | status (code : Nat)
  | panic
  deriving DecidableEq, Repr

structure Run where
  trace : List Action
  exit : Exit
  deriving DecidableEq, Repr

/-- How a function body ends: by `return` (or falling off its end), by
`os.Exit(code)`, or by a panic. -/
inductive Outcome where
  | returned
  | exited (code : Nat)
  | panicked
  deriving DecidableEq, Repr

/-- Rendering of a `[]string` under `%+v`. -/
def fmtList (xs : List Str) : Str :=
  "[".toList ++ (xs.intersperse " ".toList).flatten ++ "]".toList

/-- The call `vpn.Stop()` with the `if err := vpn.Stop(); err != nil` report
around it (lines 332-334 and 343-349); `onSuccess` is what the caller does
in the `else` branch. -/
def stopVPN (vpn : VPNManager) (killErr : Option Str) (onSuccess : List Action) :
    List Action × Outcome :=
  match vpn.Stop killErr with
  | .panic => ([.vpnStop], .panicked)
  | .error err =>
    ([.vpnStop, .printErr ("error stopping VPN: ".toList ++ err ++ "\n".toList)], .returned)
  | .ok () => (.vpnStop :: onSuccess, .returned)

/-- The function deferred at lines 338-350. -/
def deferredStop (arguments : Arguments) (vpn : VPNManager) (killErr : Option Str) :
    List Action × Outcome :=
  let pre : List Action :=
    if arguments.verbose then [.printErr "+ shutting down VPN...\n".toList] else []
  let (acts, out) := stopVPN vpn killErr
    (if arguments.verbose then [.printErr "+ success\n".toList] else [])
  (pre ++ acts, out)

/-- Lines 352-411 of `main`: what runs after the `defer` statement. -/
def runCommand (arguments : Arguments) (env : MainEnv) : List Action × Outcome :=
  match env.getwd with
  | .error err =>
    ([.printErr ("error getting current working dir: ".toList ++ err ++ "\n".toList)],
      .exited 1)
  | .ok dir =>
    match env.cmdSpawn.stdoutPipeErr with
    | some err =>
      ([.printErr ("error capturing stdout: ".toList ++ err ++ "\n".toList)], .exited 1)
    | none =>
      match env.cmdSpawn.stderrPipeErr with
      | some err =>
        ([.printErr ("error capturing stderr: ".toList ++ err ++ "\n".toList)], .exited 1)
      | none =>
        let pre : List Action :=
          if arguments.verbose then
            [.printErr ("+ running ".toList ++ fmtList arguments.input ++ " at ".toList ++
              dir ++ "\n".toList)]
          else []
        match env.cmdSpawn.startErr with
        | some err =>
          (pre ++ [.cmdStart arguments.input,
            .printErr ("error running ".toList ++ fmtList arguments.input ++ ": ".toList ++
              err ++ "\n".toList)], .exited 1)
        | none => (pre ++ [.cmdStart arguments.input, .cmdWait], .returned)

/-- Go semantics of a function with one deferred call: the deferred function
runs when the body returns or panics; `os.Exit` ends the program at once and
deferred functions are not run. -/
def withDefer (body deferred : List Action × Outcome) : Run :=
  match body.2 with
  | .exited code => { trace := body.1, exit := .status code }
  | .returned =>
    match deferred.2 with
    | .returned => { trace := body.1 ++ deferred.1, exit := .status 0 }
    | .exited code => { trace := body.1 ++ deferred.1, exit := .status code }
    | .panicked => { trace := body.1 ++ deferred.1, exit := .panic }
  | .panicked => { trace := body.1 ++ deferred.1, exit := .panic }

/-- Go `main`.  The live copy of the wrapped command's output to the
program's own streams is not part of the trace. -/
def main (env : MainEnv) : Run :=
  match ParseArguments env.args with
  | .panicked => { trace := [], exit := .panic }
  | .exited code printed => { trace := [printed], exit := .status code }
  | .returned arguments =>
    if arguments.input.length = 0 then
      { trace := [.printUsage arguments.programName], exit := .status 1 }
    else
      match LoadUserConfigurations env.config with
      | .panic => { trace := [], exit := .panic }
      | .error err => { trace := [.printErr (err ++ "\n".toList)], exit := .status 1 }
      | .ok configs =>
        let vpn := NewVPNManager arguments
        match vpn.Start configs env.vpnSpawn with
        | (_, some err) =>
          { trace := [.vpnStart (startArgv configs),
              .printErr ("failed to start VPN due to: ".toList ++ err ++ "\n".toList)],
            exit := .status 1 }
        | (vpn, none) =>
          let started : List Action := [.vpnStart (startArgv configs), .vpnWaitUntilUp]
          if ¬ vpn.WaitUntilUp env.vpnEvents then
            let waited : List Action :=
              started ++ [.printOut "- Timeout waiting for VPN to connect.\n".toList,
                .printErr "VPN did not start in time\n".toList]
            match stopVPN vpn env.killErr [] with
            | (acts, .panicked) => { trace := waited ++ acts, exit := .panic }
            | (acts, _) => { trace := waited ++ acts, exit := .status 1 }
          else
            let up : List Action :=
              if arguments.verbose then [.printOut "+ VPN is up and running!!\n".toList]
              else []
            let rest := withDefer (runCommand arguments env)
              (deferredStop arguments vpn env.killErr)
            { trace := started ++ up ++ rest.trace, exit := rest.exit }

/-! ## Concrete inputs -/

/-- The manager of a run: made by `NewVPNManager`, started without error. -/
def startedVPN : VPNManager :=
  ((NewVPNManager { input := ["ls".toList], programName := "uvn".toList, verbose := false }).Start
    { vpnPath := "/etc/vpn/client.conf".toList, vpnAuthFilePath := EMPTY_STRING }
    { stdoutPipeErr := none, stderrPipeErr := none, startErr := none }).1

/-- A run of `uvn ls` whose VPN process prints no readiness marker within
the 15 seconds. -/
def timeoutEnv : MainEnv :=
  { args := ["uvn".toList, "ls".toList]
    config := fileEnv "/home/u".toList "vpn_file_path = /etc/vpn/client.conf".toList
    vpnSpawn := { stdoutPipeErr := none, stderrPipeErr := none, startErr := none }
    vpnEvents := [.stdoutLine "OpenVPN 2.6.3 x86_64-pc-linux-gnu".toList]
    killErr := none
    getwd := .ok "/tmp".toList
    cmdSpawn := { stdoutPipeErr := none, stderrPipeErr := none, startErr := none } }

/-- A run of `uvn nosuchcmd`: the VPN comes up, and starting the wrapped
command fails because there is no such executable. -/
def cmdNotFoundEnv : MainEnv :=
  { args := ["uvn".toList, "nosuchcmd".toList]
    config := fileEnv "/home/u".toList "vpn_file_path = /etc/vpn/client.conf".toList
    vpnSpawn := { stdoutPipeErr := none, stderrPipeErr := none, startErr := none }
    vpnEvents := [.stdoutLine readyMarker]
    killErr := none
    getwd := .ok "/tmp".toList
    cmdSpawn :=
      { stdoutPipeErr := none, stderrPipeErr := none
        startErr := some "exec: \"nosuchcmd\": executable file not found in $PATH".toList } }

/-- The arguments of `uvn ls`. -/
def lsArguments : Arguments :=
  { input := ["ls".toList], programName := "uvn".toList, verbose := false }

/-- The record loaded from `vpn_file_path = /etc/vpn/client.conf`. -/
def clientConfigs : UserConfigurations :=
  { vpnPath := "/etc/vpn/client.conf".toList, vpnAuthFilePath := EMPTY_STRING }

/-- A configuration with a credentials file under the home directory. -/
def authConfigText : Str :=
  "vpn_file_path = /etc/vpn/client.conf\nvpn_auth_file_path = \"~/vpn/auth.txt\"".toList

/-- The record `authConfigText` loads to, for the home directory `/home/u`. -/
def authConfigs : UserConfigurations :=
  { vpnPath := "/etc/vpn/client.conf".toList, vpnAuthFilePath := "/home/u/vpn/auth.txt".toList }

/-- A configuration whose credentials file is named `<empty>`. -/
def sentinelConfigText : Str :=
  "vpn_file_path = /etc/vpn/client.conf\nvpn_auth_file_path = <empty>".toList

/-- No failure while a process is set up. -/
def spawnOk : SpawnEnv := { stdoutPipeErr := none, stderrPipeErr := none, startErr := none }

/-! ## Theorems: argument parser -/

theorem parseLoop_input_nonempty (rest : List Str) :
    ∀ arguments : Arguments, arguments.input ≠ [] →
      parseLoop arguments rest =
        .returned { arguments with input := arguments.input ++ rest } := by
  induction rest with
  | nil => intro arguments _; simp [parseLoop]
  | cons arg rest ih =>
    intro arguments h
    have hlen : ¬ arguments.input.length = 0 := by
      simpa [List.length_eq_zero] using h
    rw [parseLoop, if_neg hlen, ih _ (by simp)]
    simp

theorem parseLoop_verbose_flags (prog : Str) (tail : List Str) (opts : List Str)
    (hopts : ∀ o ∈ opts, o = "-v".toList ∨ o = "--verbose".toList) :
    ∀ b : Bool,
      parseLoop { input := [], programName := prog, verbose := b } (opts ++ tail) =
        parseLoop { input := [], programName := prog,
                    verbose := b || decide (opts ≠ []) } tail := by
  induction opts with
  | nil => intro b; simp
  | cons o opts ih =>
    intro b
    have ho : o = "-v".toList ∨ o = "--verbose".toList := hopts o (by simp)
    have hh : ¬ (o = "-h".toList ∨ o = "--help".toList) := by
      rcases ho with h | h <;> subst h <;> decide
    rw [List.cons_append, parseLoop]
    simp only [List.length_nil, if_true, if_neg hh, if_pos ho]
    rw [ih (fun x hx => hopts x (List.mem_cons_of_mem _ hx))]
    simp

/-- C9: options before the command are consumed, the command and everything
after it are returned verbatim and in order. -/
theorem ParseArguments_verbatim (prog : Str) (opts : List Str) (c : Str) (rest : List Str)
    (hopts : ∀ o ∈ opts, o = "-v".toList ∨ o = "--verbose".toList)
    (hc : c ≠ "-h".toList ∧ c ≠ "--help".toList ∧ c ≠ "-v".toList ∧
      c ≠ "--verbose".toList ∧ c ≠ "--version".toList) :
    ParseArguments (prog :: (opts ++ c :: rest)) =
      .returned { input := c :: rest, programName := prog,
                  verbose := decide (opts ≠ []) } := by
  obtain ⟨h1, h2, h3, h4, h5⟩ := hc
  rw [ParseArguments, parseLoop_verbose_flags prog (c :: rest) opts hopts false, parseLoop]
  simp only [List.length_nil, if_true, h1, h2, h3, h4, h5, or_self, if_false]
  rw [parseLoop_input_nonempty rest _ (by simp)]
  simp

theorem ParseArguments_verbatim_witness :
    ParseArguments ("uvn".toList ::
        (["-v".toList, "--verbose".toList] ++
          "git".toList :: ["push".toList, "--force".toList, "-v".toList, "--help".toList])) =
      .returned
        { input := "git".toList ::
            ["push".toList, "--force".toList, "-v".toList, "--help".toList],
          programName := "uvn".toList,
          verbose := decide (["-v".toList, "--verbose".toList] ≠ []) } :=
  ParseArguments_verbatim "uvn".toList ["-v".toList, "--verbose".toList] "git".toList
    ["push".toList, "--force".toList, "-v".toList, "--help".toList]
    (by decide) (by decide)

/-! ## Theorems: supervisor -/

/-- C4: on a manager fresh from `NewVPNManager`, `Stop` dereferences the nil
`v.cmd` and panics; it does not return nil. -/
theorem Stop_never_started_panics (arguments : Arguments) (killErr : Option Str) :
    (NewVPNManager arguments).Stop killErr = .panic := rfl

theorem selectRecv_waiter_of_some (s : Sys) (r : Bool) (h : s.waiter = some r) :
    (selectRecv s).waiter = some r := by
  simp [selectRecv, h]

theorem selectRecv_waiter_ne_false (s : Sys) (h : s.waiter ≠ some false) :
    (selectRecv s).waiter ≠ some false := by
  unfold selectRecv
  cases hw : s.waiter with
  | some r => simpa [hw] using h
  | none =>
    cases hr : s.upChan.recv with
    | none => simp [hw]
    | some p => simp

theorem monitorLine_waiter (s : Sys) (line : Str) :
    (monitorLine s line).waiter = s.waiter := by
  unfold monitorLine
  cases s.monitor <;> simp
  split
  · cases s.upChan.send true <;> rfl
  · rfl

theorem sysStep_waiter_true (s : Sys) (e : MonitorEvent) (h : s.waiter = some true) :
    (sysStep s e).waiter = some true := by
  cases e with
  | stdoutLine line =>
    exact selectRecv_waiter_of_some _ _ (by rw [monitorLine_waiter]; exact h)
  | processExit => exact selectRecv_waiter_of_some _ _ (by simpa [reap] using h)

theorem sysStep_waiter_ne_false (s : Sys) (e : MonitorEvent) (h : s.waiter ≠ some false) :
    (sysStep s e).waiter ≠ some false := by
  cases e with
  | stdoutLine line =>
    exact selectRecv_waiter_ne_false _ (by rw [monitorLine_waiter]; exact h)
  | processExit => exact selectRecv_waiter_ne_false _ (by simpa [reap] using h)

theorem sysStep_processExit_waiter (s : Sys) (h : s.waiter ≠ some false) :
    (sysStep s .processExit).waiter = some true := by
  cases hw : s.waiter with
  | some r =>
    cases r with
    | true => exact sysStep_waiter_true s _ hw
    | false => exact absurd hw h
  | none =>
    simp only [sysStep, selectRecv, reap, hw, Chan.recv, Chan.close]
    cases s.upChan.buf <;> simp

theorem foldl_sysStep_waiter_true (events : List MonitorEvent) :
    ∀ s : Sys, s.waiter = some true → (events.foldl sysStep s).waiter = some true := by
  induction events with
  | nil => intro s h; exact h
  | cons e events ih => intro s h; exact ih _ (sysStep_waiter_true s e h)

theorem foldl_sysStep_processExit (events : List MonitorEvent)
    (hexit : MonitorEvent.processExit ∈ events) :
    ∀ s : Sys, s.waiter ≠ some false → (events.foldl sysStep s).waiter = some true := by
  induction events with
  | nil => simp at hexit
  | cons e events ih =>
    intro s h
    by_cases he : e = .processExit
    · subst he
      exact foldl_sysStep_waiter_true events _ (sysStep_processExit_waiter s h)
    · have hmem : MonitorEvent.processExit ∈ events := by
        rcases List.mem_cons.mp hexit with h1 | h1
        · exact absurd h1.symm he
        · exact h1
      exact ih hmem _ (sysStep_waiter_ne_false s e h)

/-- C1: when the reaper closes `upChan` before the timeout, the receive case
of the `select` fires on the closed channel and `WaitUntilUp` returns true,
also when no standard-output line carried the readiness marker. -/
theorem WaitUntilUp_true_on_exit (v : VPNManager) (events : List MonitorEvent)
    (_hmarker : ∀ line, MonitorEvent.stdoutLine line ∈ events →
      Contains line readyMarker = false)
    (hexit : MonitorEvent.processExit ∈ events) :
    v.WaitUntilUp events = true := by
  have hinit : (selectRecv (Sys.init v)).waiter ≠ some false :=
    selectRecv_waiter_ne_false _ (by simp [Sys.init])
  have h := foldl_sysStep_processExit events hexit _ hinit
  simp [VPNManager.WaitUntilUp, sysRun, h]

theorem WaitUntilUp_true_on_exit_witness :
    startedVPN.WaitUntilUp
      [.stdoutLine "AUTH: Received control message: AUTH_FAILED".toList, .processExit] = true :=
  WaitUntilUp_true_on_exit startedVPN
    [.stdoutLine "AUTH: Received control message: AUTH_FAILED".toList, .processExit]
    (by
      intro line h
      simp only [List.mem_cons, MonitorEvent.stdoutLine.injEq, List.mem_singleton,
        reduceCtorEq, or_false, List.not_mem_nil] at h
      subst h
      decide)
    (by decide)

/-- C3: every matching line sends on `upChan`.  With the first value taken
by `WaitUntilUp`, a second marker line sends again, a third blocks the
monitor on the full buffer, and a marker line read after the reaper closed
the channel panics. -/
theorem monitorOutput_sends_per_marker :
    (sysRun startedVPN [.stdoutLine readyMarker, .stdoutLine readyMarker]).sends = 2 ∧
    (sysRun startedVPN
      [.stdoutLine readyMarker, .stdoutLine readyMarker, .stdoutLine readyMarker]).monitor
        = .blockedOnSend ∧
    (sysRun startedVPN
      [.stdoutLine readyMarker, .processExit, .stdoutLine readyMarker]).monitor
        = .panicked := by
  decide

/-! ## Theorems: session orchestrator -/

theorem Start_ok_cmd (v vpn : VPNManager) (configs : UserConfigurations) (env : SpawnEnv)
    (h : v.Start configs env = (vpn, none)) :
    vpn.cmd = some { args := startArgv configs, process := true } := by
  unfold VPNManager.Start at h
  cases h1 : env.stdoutPipeErr <;> simp [h1] at h
  cases h2 : env.stderrPipeErr <;> simp [h2] at h
  cases h3 : env.startErr <;> simp [h3] at h
  rw [← h]

theorem stopVPN_started (vpn : VPNManager) (cmd : Cmd) (killErr : Option Str)
    (onSuccess : List Action) (hcmd : vpn.cmd = some cmd)
    (hon : Action.vpnStop ∉ onSuccess) (hon2 : ∀ argv, Action.cmdStart argv ∉ onSuccess) :
    (stopVPN vpn killErr onSuccess).2 = .returned ∧
    (stopVPN vpn killErr onSuccess).1.count .vpnStop = 1 ∧
    ∀ argv, Action.cmdStart argv ∉ (stopVPN vpn killErr onSuccess).1 := by
  unfold stopVPN VPNManager.Stop
  rw [hcmd]
  cases hp : cmd.process <;> cases killErr <;>
    simp [hp, List.count_cons, List.count_eq_zero_of_not_mem hon, hon2]

/-- C8: when `Start` succeeds and `WaitUntilUp` returns false, `main` calls
`vpn.Stop` exactly once, exits with status 1 and never launches the wrapped
command. -/
theorem main_timeout_teardown (env : MainEnv) (arguments : Arguments)
    (configs : UserConfigurations) (vpn : VPNManager)
    (hargs : ParseArguments env.args = .returned arguments)
    (hinput : arguments.input ≠ [])
    (hcfg : LoadUserConfigurations env.config = .ok configs)
    (hstart : (NewVPNManager arguments).Start configs env.vpnSpawn = (vpn, none))
    (hwait : vpn.WaitUntilUp env.vpnEvents = false) :
    (main env).trace.count .vpnStop = 1 ∧ (main env).exit = .status 1 ∧
      ∀ argv, Action.cmdStart argv ∉ (main env).trace := by
  have hlen : ¬ arguments.input.length = 0 := by
    simpa [List.length_eq_zero] using hinput
  obtain ⟨h1, h2, h3⟩ := stopVPN_started vpn _ env.killErr [] (Start_ok_cmd _ _ _ _ hstart)
    (by simp) (by simp)
  unfold main
  simp only [hargs, if_neg hlen, hcfg, hstart, hwait]
  generalize stopVPN vpn env.killErr [] = r at h1 h2 h3
  obtain ⟨acts, out⟩ := r
  simp only at h1 h2 h3
  subst h1
  refine ⟨?_, ?_, ?_⟩
  · simp [List.count_cons, h2]
  · simp
  · intro argv
    simp [h3 argv]

theorem main_timeout_teardown_witness :
    (main timeoutEnv).trace.count .vpnStop = 1 ∧ (main timeoutEnv).exit = .status 1 ∧
      ∀ argv, Action.cmdStart argv ∉ (main timeoutEnv).trace :=
  main_timeout_teardown timeoutEnv lsArguments clientConfigs
    { cmd := some { args := startArgv clientConfigs, process := true }, cancel := true,
      upChan := Chan.make 1, arguments := lsArguments }
    (by decide) (by decide) (by decide) (by decide) (by decide)

theorem runCommand_failure (arguments : Arguments) (env : MainEnv)
    (hfail : (∃ err, env.getwd = .error err) ∨ env.cmdSpawn.stdoutPipeErr ≠ none ∨
      env.cmdSpawn.stderrPipeErr ≠ none ∨ env.cmdSpawn.startErr ≠ none) :
    (runCommand arguments env).2 = .exited 1 ∧
      Action.vpnStop ∉ (runCommand arguments env).1 := by
  unfold runCommand
  cases hg : env.getwd with
  | error err => simp
  | ok dir =>
    cases h1 : env.cmdSpawn.stdoutPipeErr with
    | some err => simp
    | none =>
      cases h2 : env.cmdSpawn.stderrPipeErr with
      | some err => simp
      | none =>
        cases h3 : env.cmdSpawn.startErr with
        | some err => cases arguments.verbose <;> simp
        | none => simp [hg, h1, h2, h3] at hfail

/-- C2: once the VPN is up, a failure of `os.Getwd`, of a pipe of the wrapped
command, or of its start ends `main` through `os.Exit(1)`, which skips the
deferred function: `vpn.Stop` is not called on these exit paths. -/
theorem main_exit_skips_deferred_stop (env : MainEnv) (arguments : Arguments)
    (configs : UserConfigurations) (vpn : VPNManager)
    (hargs : ParseArguments env.args = .returned arguments)
    (hinput : arguments.input ≠ [])
    (hcfg : LoadUserConfigurations env.config = .ok configs)
    (hstart : (NewVPNManager arguments).Start configs env.vpnSpawn = (vpn, none))
    (hwait : vpn.WaitUntilUp env.vpnEvents = true)
    (hfail : (∃ err, env.getwd = .error err) ∨ env.cmdSpawn.stdoutPipeErr ≠ none ∨
      env.cmdSpawn.stderrPipeErr ≠ none ∨ env.cmdSpawn.startErr ≠ none) :
    Action.vpnStop ∉ (main env).trace ∧ (main env).exit = .status 1 := by
  have hlen : ¬ arguments.input.length = 0 := by
    simpa [List.length_eq_zero] using hinput
  obtain ⟨h1, h2⟩ := runCommand_failure arguments env hfail
  unfold main
  simp only [hargs, if_neg hlen, hcfg, hstart, hwait, withDefer, h1]
  refine ⟨?_, ?_⟩
  · cases arguments.verbose <;> simp [h2]
  · simp

theorem main_exit_skips_deferred_stop_witness :
    Action.vpnStop ∉ (main cmdNotFoundEnv).trace ∧ (main cmdNotFoundEnv).exit = .status 1 :=
  main_exit_skips_deferred_stop cmdNotFoundEnv
    { input := ["nosuchcmd".toList], programName := "uvn".toList, verbose := false }
    clientConfigs
    { cmd := some { args := startArgv clientConfigs, process := true }, cancel := true,
      upChan := Chan.make 1,
      arguments :=
        { input := ["nosuchcmd".toList], programName := "uvn".toList, verbose := false } }
    (by decide) (by decide) (by decide) (by decide) (by decide)
    (Or.inr (Or.inr (Or.inr (by decide))))

/-- On normal completion of the wrapped command the deferred function runs:
`vpn.Stop` is called once, after `cmd.Wait()`. -/
theorem main_normal_completion_stops (env : MainEnv) (arguments : Arguments)
    (configs : UserConfigurations) (vpn : VPNManager) (dir : Str)
    (hargs : ParseArguments env.args = .returned arguments)
    (hinput : arguments.input ≠ [])
    (hcfg : LoadUserConfigurations env.config = .ok configs)
    (hstart : (NewVPNManager arguments).Start configs env.vpnSpawn = (vpn, none))
    (hwait : vpn.WaitUntilUp env.vpnEvents = true)
    (hwd : env.getwd = .ok dir)
    (hspawn : env.cmdSpawn = { stdoutPipeErr := none, stderrPipeErr := none, startErr := none }) :
    (main env).trace.count .vpnStop = 1 ∧ (main env).exit = .status 0 := by
  have hlen : ¬ arguments.input.length = 0 := by
    simpa [List.length_eq_zero] using hinput
  have hcmd := Start_ok_cmd _ _ _ _ hstart
  unfold main
  simp only [hargs, if_neg hlen, hcfg, hstart, hwait, withDefer, runCommand, hwd, hspawn,
    deferredStop, stopVPN, VPNManager.Stop, hcmd]
  cases arguments.verbose <;> cases env.killErr <;> simp [List.count_cons]

/-! ## Theorems: configuration loader -/

theorem TrimSpace_idem (s : Str) : TrimSpace (TrimSpace s) = TrimSpace s := by
  have hd : List.dropWhile isSpace (TrimSpace s) = TrimSpace s := by
    unfold TrimSpace
    have hhead := List.head?_dropWhile_not isSpace s
    obtain ⟨suf, hsuf⟩ := List.rdropWhile_prefix isSpace (List.dropWhile isSpace s)
    cases hr : List.rdropWhile isSpace (List.dropWhile isSpace s) with
    | nil => rfl
    | cons b r =>
      rw [hr] at hsuf
      rw [← hsuf] at hhead
      simp only [List.cons_append, List.head?_cons] at hhead
      simp [List.dropWhile_cons, hhead]
  unfold TrimSpace at hd ⊢
  rw [hd, List.rdropWhile_idempotent]

theorem slice_zero (s : Str) (n : Nat) (h : n ≤ s.length) :
    slice s 0 n = some (s.take n) := by
  simp [slice, h]

theorem slice_to_end (s : Str) (n : Nat) (h : n ≤ s.length) :
    slice s n s.length = some (s.drop n) := by
  simp [slice, h]

theorem lone_quote_of_length_one (value : Str) (hp : HasPrefix value '"' = true)
    (hlen : value.length < 2) : value = ['"'] := by
  match value, hp, hlen with
  | [c], hp, _ => simpa [HasPrefix] using hp
  | [], hp, _ => simp [HasPrefix] at hp
  | _ :: _ :: _, _, hlen => simp only [List.length_cons] at hlen; omega

/-- The quote stripping of `lineStep` (lines 109-111) on a value: a lone
double quote is sliced out of range, every other value is unquoted. -/
theorem strip_eq (value : Str) :
    (if HasPrefix value '"' && HasSuffix value '"' then
        slice value 1 (value.length - 1) else some value) =
      if value = ['"'] then none else some (unquote value) := by
  by_cases hq : value = ['"']
  · subst hq; decide
  · rw [if_neg hq]
    by_cases hp : HasPrefix value '"' = true
    · by_cases hs : HasSuffix value '"' = true
      · have hlen : 2 ≤ value.length := by
          by_contra hc
          exact hq (lone_quote_of_length_one value hp (by omega))
        have h1 : 1 ≤ value.length - 1 ∧ value.length - 1 ≤ value.length := by omega
        have h2 : value.length - 1 - 1 = value.length - 2 := by omega
        simp [hp, hs, unquote, hlen, slice, h1, h2]
      · simp [hp, hs, unquote]
    · simp [hp, unquote]

theorem authKey_ne_fileKey : vpnAuthFilePathConfigKey ≠ vpnFilePathConfigKey := by decide

/-- The loop body of `LoadUserConfigurations` does what `lineSpec` says. -/
theorem lineStep_eq_lineSpec (userHomeDir : Str) (configs : UserConfigurations)
    (index : Nat) (line : Str) :
    lineStep userHomeDir configs index line = lineSpec userHomeDir configs index line := by
  unfold lineStep lineSpec
  simp only [TrimSpace_idem]
  by_cases hb : TrimSpace line = []
  · simp [hb]
  · rw [if_neg hb, if_neg hb]
    by_cases heq : '=' ∈ TrimSpace line
    · have hidx : Index (TrimSpace line) '=' = ((TrimSpace line).indexOf '=' : Nat) := by
        simp [Index, heq]
      have hlt : (TrimSpace line).indexOf '=' < (TrimSpace line).length :=
        List.indexOf_lt_length.mpr heq
      have hneg : ¬ (((TrimSpace line).indexOf '=' : Nat) : Int) < 0 := by omega
      have hnat : ((((TrimSpace line).indexOf '=' : Nat) : Int) + 1).toNat =
          (TrimSpace line).indexOf '=' + 1 := by omega
      rw [hidx, if_neg hneg, if_neg (not_not.mpr heq), Int.toNat_ofNat,
        slice_zero _ _ (le_of_lt hlt), hnat, slice_to_end _ _ hlt]
      simp only [strip_eq]
      have hkey : TrimSpace ((TrimSpace line).take ((TrimSpace line).indexOf '=')) =
          lineKey line := rfl
      have hraw : TrimSpace ((TrimSpace line).drop ((TrimSpace line).indexOf '=' + 1)) =
          lineRawValue line := rfl
      rw [hkey, hraw]
      by_cases hk : lineKey line = []
      · simp [hk]
      · rw [if_neg hk, if_neg hk]
        by_cases hend : (((TrimSpace line).indexOf '=' : Nat) : Int) + 1 ≥
            ((TrimSpace line).length : Int)
        · have hdrop : (TrimSpace line).drop ((TrimSpace line).indexOf '=' + 1) = [] :=
            List.drop_eq_nil_iff.mpr (by omega)
          have hraw0 : lineRawValue line = [] := by
            rw [← hraw, hdrop]; rfl
          have hval0 : lineValue line = [] := by
            rw [lineValue, hraw0]; rfl
          simp [hend, hraw0, hval0]
        · rw [if_neg hend]
          by_cases hq : lineRawValue line = ['"']
          · simp [hq]
          · rw [if_neg hq, if_neg hq]
            have hv : unquote (lineRawValue line) = lineValue line := rfl
            simp only [hv]
            by_cases hv0 : lineValue line = []
            · simp [hv0]
            · rw [if_neg hv0, if_neg hv0]
              unfold assign
              by_cases h1 : lineKey line = vpnFilePathConfigKey
              · simp [h1]
              · by_cases h2 : lineKey line = vpnAuthFilePathConfigKey
                · simp [h2, authKey_ne_fileKey]
                · simp [h1, h2]
    · have hidx : Index (TrimSpace line) '=' = -1 := by simp [Index, heq]
      simp [hidx, heq]

theorem lineLoop_append (userHomeDir : Str) (xs ys : List Str) :
    ∀ (configs : UserConfigurations) (index : Nat),
      lineLoop userHomeDir configs index (xs ++ ys) =
        match lineLoop userHomeDir configs index xs with
        | .ok configs => lineLoop userHomeDir configs (index + xs.length) ys
        | .error msg => .error msg
        | .panic => .panic := by
  induction xs with
  | nil => intro configs index; simp [lineLoop]
  | cons x xs ih =>
    intro configs index
    have hlen : index + (x :: xs).length = index + 1 + xs.length := by
      simp only [List.length_cons]; omega
    rw [List.cons_append, lineLoop, lineLoop, hlen]
    cases hx : lineStep userHomeDir configs index x with
    | ok c => exact ih c (index + 1)
    | error msg => rfl
    | panic => rfl

theorem unquote_lone_quote : unquote ['"'] = ['"'] := by decide

/-- A line that is not malformed and whose value is not a lone double quote
is read without error. -/
theorem lineStep_wellformed (userHomeDir : Str) (configs : UserConfigurations)
    (index : Nat) (line : Str) (hm : ¬ Malformed line) (hq : lineRawValue line ≠ ['"']) :
    ∃ configs', lineStep userHomeDir configs index line = .ok configs' := by
  rw [lineStep_eq_lineSpec]
  unfold lineSpec
  by_cases hb : TrimSpace line = []
  · exact ⟨configs, by simp [hb]⟩
  · have h := fun hx => hm ⟨hb, hx⟩
    have h1 : ¬ '=' ∉ TrimSpace line := fun hx => h (Or.inl hx)
    have h2 : ¬ lineKey line = [] := fun hx => h (Or.inr (Or.inl hx))
    have h3 : ¬ lineValue line = [] := fun hx => h (Or.inr (Or.inr hx))
    exact ⟨_, by rw [if_neg hb, if_neg h1, if_neg h2, if_neg hq, if_neg h3]⟩

/-- A malformed line makes the loop body return an error that begins with
its 1-based line number. -/
theorem lineStep_malformed (userHomeDir : Str) (configs : UserConfigurations)
    (index : Nat) (line : Str) (hm : Malformed line) :
    ∃ msg, lineStep userHomeDir configs index line = .error msg ∧
      ("line ".toList ++ fmtInt (index + 1) ++ ":".toList) <+: msg := by
  rw [lineStep_eq_lineSpec]
  unfold lineSpec
  obtain ⟨hb, hcases⟩ := hm
  rw [if_neg hb]
  by_cases h1 : '=' ∉ TrimSpace line
  · rw [if_pos h1]
    exact ⟨_, rfl, ⟨" invalid config line: ".toList ++ TrimSpace line, by simp⟩⟩
  · rw [if_neg h1]
    by_cases h2 : lineKey line = []
    · rw [if_pos h2]
      exact ⟨_, rfl, ⟨" empty key".toList, by simp⟩⟩
    · rw [if_neg h2]
      have h3 : lineValue line = [] := by
        rcases hcases with h | h | h
        · exact absurd h h1
        · exact absurd h h2
        · exact h
      have hq : ¬ lineRawValue line = ['"'] := by
        intro hq
        rw [lineValue, hq, unquote_lone_quote] at h3
        simp at h3
      rw [if_neg hq, if_pos h3]
      exact ⟨_, rfl, ⟨" ".toList ++ lineKey line ++ " does not have a value".toList, by simp⟩⟩

theorem lineLoop_first_malformed (userHomeDir : Str) (pre post : List Str) (line : Str)
    (hpre : ∀ x ∈ pre, ¬ Malformed x ∧ lineRawValue x ≠ ['"'])
    (hm : Malformed line) :
    ∀ (configs : UserConfigurations) (index : Nat),
      ∃ msg, lineLoop userHomeDir configs index (pre ++ line :: post) = .error msg ∧
        ("line ".toList ++ fmtInt (index + pre.length + 1) ++ ":".toList) <+: msg := by
  induction pre with
  | nil =>
    intro configs index
    obtain ⟨msg, h1, h2⟩ := lineStep_malformed userHomeDir configs index line hm
    exact ⟨msg, by simp [lineLoop, h1], by simpa using h2⟩
  | cons x pre ih =>
    intro configs index
    obtain ⟨c, hc⟩ := lineStep_wellformed userHomeDir configs index x
      (hpre x (by simp)).1 (hpre x (by simp)).2
    obtain ⟨msg, h1, h2⟩ := ih (fun y hy => hpre y (List.mem_cons_of_mem _ hy)) c (index + 1)
    refine ⟨msg, by simp [lineLoop, hc, h1], ?_⟩
    have : index + 1 + pre.length + 1 = index + (x :: pre).length + 1 := by
      simp only [List.length_cons]; omega
    rw [← this]
    exact h2

/-- When no earlier line has a lone double quote as its value, the first
malformed line, at 1-based position `n`, makes `LoadUserConfigurations`
return an error that begins with `line n:`. -/
theorem LoadUserConfigurations_first_malformed (home data : Str) (pre post : List Str)
    (line : Str) (hsplit : SplitLines data = pre ++ line :: post)
    (hpre : ∀ x ∈ pre, ¬ Malformed x ∧ lineRawValue x ≠ ['"'])
    (hm : Malformed line) :
    ∃ msg, LoadUserConfigurations (fileEnv home data) = .error msg ∧
      ("line ".toList ++ fmtInt (pre.length + 1) ++ ":".toList) <+: msg := by
  obtain ⟨msg, h1, h2⟩ := lineLoop_first_malformed home pre post line hpre hm
    { vpnPath := EMPTY_STRING, vpnAuthFilePath := EMPTY_STRING } 0
  refine ⟨msg, ?_, by simpa using h2⟩
  simp [LoadUserConfigurations, fileEnv, loadFromData, hsplit, h1]

/-- The loop body panics on exactly one kind of line: a non-empty key and
a value that is a lone double quote. -/
theorem lineStep_panic_iff (userHomeDir : Str) (configs : UserConfigurations)
    (index : Nat) (line : Str) :
    lineStep userHomeDir configs index line = .panic ↔
      ('=' ∈ TrimSpace line ∧ lineKey line ≠ [] ∧ lineRawValue line = ['"']) := by
  rw [lineStep_eq_lineSpec]
  unfold lineSpec
  by_cases hb : TrimSpace line = []
  · simp [hb]
  · by_cases h1 : '=' ∈ TrimSpace line
    · by_cases h2 : lineKey line = []
      · simp [hb, h1, h2]
      · by_cases hq : lineRawValue line = ['"']
        · simp [hb, h1, h2, hq]
        · by_cases h3 : lineValue line = []
          · simp [hb, h1, h2, hq, h3]
          · simp [hb, h1, h2, hq, h3]
    · simp [hb, h1]

theorem lineLoop_ne_panic (userHomeDir : Str) (lines : List Str)
    (hq : ∀ x ∈ lines, lineRawValue x ≠ ['"']) :
    ∀ (configs : UserConfigurations) (index : Nat),
      lineLoop userHomeDir configs index lines ≠ .panic := by
  induction lines with
  | nil => intro configs index; simp [lineLoop]
  | cons x lines ih =>
    intro configs index
    rw [lineLoop]
    cases hx : lineStep userHomeDir configs index x with
    | ok c => exact ih (fun y hy => hq y (List.mem_cons_of_mem _ hy)) c (index + 1)
    | error msg => simp
    | panic =>
      exact absurd ((lineStep_panic_iff _ _ _ _).mp hx).2.2 (hq x (by simp))

/-- When no line has a lone double quote as its value, the loader returns a
record or an error. -/
theorem LoadUserConfigurations_total (home data : Str)
    (hq : ∀ x ∈ SplitLines data, lineRawValue x ≠ ['"']) :
    LoadUserConfigurations (fileEnv home data) ≠ .panic := by
  have h := lineLoop_ne_panic home (SplitLines data) hq
    { vpnPath := EMPTY_STRING, vpnAuthFilePath := EMPTY_STRING } 0
  simp only [LoadUserConfigurations, fileEnv, loadFromData]
  cases hl : lineLoop home { vpnPath := EMPTY_STRING, vpnAuthFilePath := EMPTY_STRING } 0
    (SplitLines data) with
  | ok c => by_cases hc : c.vpnPath = EMPTY_STRING <;> simp [hc]
  | error msg => simp
  | panic => exact absurd hl h

/-- What a line that is read without error does to the record. -/
theorem lineStep_ok (userHomeDir : Str) (configs configs' : UserConfigurations)
    (index : Nat) (line : Str)
    (h : lineStep userHomeDir configs index line = .ok configs') :
    (TrimSpace line = [] ∧ configs' = configs) ∨
      (TrimSpace line ≠ [] ∧
        configs' = assign userHomeDir configs (lineKey line) (lineValue line)) := by
  rw [lineStep_eq_lineSpec] at h
  unfold lineSpec at h
  by_cases hb : TrimSpace line = []
  · left
    rw [if_pos hb] at h
    exact ⟨hb, by injection h with h; exact h.symm⟩
  · right
    rw [if_neg hb] at h
    refine ⟨hb, ?_⟩
    split at h
    · cases h
    · split at h
      · cases h
      · split at h
        · cases h
        · split at h
          · cases h
          · injection h with h; exact h.symm

theorem lineKey_blank (line : Str) (hb : TrimSpace line = []) : lineKey line = [] := by
  simp only [lineKey, hb, List.take_nil]
  rfl

theorem lineStep_ok_of_key (userHomeDir : Str) (configs configs' : UserConfigurations)
    (index : Nat) (line : Str) (hk : lineKey line ≠ [])
    (h : lineStep userHomeDir configs index line = .ok configs') :
    configs' = assign userHomeDir configs (lineKey line) (lineValue line) := by
  rcases lineStep_ok _ _ _ _ _ h with ⟨hb, _⟩ | ⟨_, h2⟩
  · exact absurd (lineKey_blank line hb) hk
  · exact h2

theorem lineStep_ok_other_key (userHomeDir : Str) (configs configs' : UserConfigurations)
    (index : Nat) (line : Str)
    (h : lineStep userHomeDir configs index line = .ok configs') :
    (lineKey line ≠ vpnFilePathConfigKey → configs'.vpnPath = configs.vpnPath) ∧
    (lineKey line ≠ vpnAuthFilePathConfigKey →
      configs'.vpnAuthFilePath = configs.vpnAuthFilePath) := by
  rcases lineStep_ok _ _ _ _ _ h with ⟨_, h2⟩ | ⟨_, h2⟩
  · subst h2; exact ⟨fun _ => rfl, fun _ => rfl⟩
  · subst h2
    unfold assign
    constructor
    · intro hk; rw [if_neg hk]; split <;> rfl
    · intro hk
      by_cases h1 : lineKey line = vpnFilePathConfigKey
      · rw [if_pos h1]
      · rw [if_neg h1, if_neg hk]

theorem lineLoop_keeps (userHomeDir : Str) (lines : List Str) :
    ∀ (configs configs' : UserConfigurations) (index : Nat),
      lineLoop userHomeDir configs index lines = .ok configs' →
      ((∀ x ∈ lines, lineKey x ≠ vpnFilePathConfigKey) →
        configs'.vpnPath = configs.vpnPath) ∧
      ((∀ x ∈ lines, lineKey x ≠ vpnAuthFilePathConfigKey) →
        configs'.vpnAuthFilePath = configs.vpnAuthFilePath) := by
  induction lines with
  | nil =>
    intro configs configs' index h
    simp only [lineLoop, Result.ok.injEq] at h
    subst h
    exact ⟨fun _ => rfl, fun _ => rfl⟩
  | cons x lines ih =>
    intro configs configs' index h
    rw [lineLoop] at h
    cases hx : lineStep userHomeDir configs index x with
    | ok c =>
      rw [hx] at h
      obtain ⟨k1, k2⟩ := ih c configs' (index + 1) h
      obtain ⟨s1, s2⟩ := lineStep_ok_other_key _ _ _ _ _ hx
      constructor
      · intro hall
        rw [k1 (fun y hy => hall y (List.mem_cons_of_mem _ hy)), s1 (hall x (by simp))]
      · intro hall
        rw [k2 (fun y hy => hall y (List.mem_cons_of_mem _ hy)), s2 (hall x (by simp))]
    | error msg => rw [hx] at h; cases h
    | panic => rw [hx] at h; cases h

theorem fileKey_ne_nil : vpnFilePathConfigKey ≠ [] := by decide

theorem authKey_ne_nil : vpnAuthFilePathConfigKey ≠ [] := by decide

/-- Of several lines with the same path-valued key the last one wins, and
its value is stored with its first `~` replaced by the home directory. -/
theorem lineLoop_last_value (userHomeDir : Str) (pre post : List Str) (line : Str)
    (configs configs' : UserConfigurations) (index : Nat)
    (h : lineLoop userHomeDir configs index (pre ++ line :: post) = .ok configs') :
    (lineKey line = vpnFilePathConfigKey →
      (∀ x ∈ post, lineKey x ≠ vpnFilePathConfigKey) →
      configs'.vpnPath = ReplaceFirst (lineValue line) '~' userHomeDir) ∧
    (lineKey line = vpnAuthFilePathConfigKey →
      (∀ x ∈ post, lineKey x ≠ vpnAuthFilePathConfigKey) →
      configs'.vpnAuthFilePath = ReplaceFirst (lineValue line) '~' userHomeDir) := by
  rw [lineLoop_append] at h
  cases hpre : lineLoop userHomeDir configs index pre with
  | error msg => rw [hpre] at h; cases h
  | panic => rw [hpre] at h; cases h
  | ok c1 =>
    rw [hpre] at h
    simp only [] at h
    rw [lineLoop] at h
    cases hstep : lineStep userHomeDir c1 (index + pre.length) line with
    | error msg => rw [hstep] at h; cases h
    | panic => rw [hstep] at h; cases h
    | ok c2 =>
      rw [hstep] at h
      obtain ⟨k1, k2⟩ := lineLoop_keeps userHomeDir post c2 configs' _ h
      constructor
      · intro hk hall
        have hc2 := lineStep_ok_of_key _ _ _ _ _ (by rw [hk]; exact fileKey_ne_nil) hstep
        rw [k1 hall, hc2, assign, if_pos hk]
      · intro hk hall
        have hc2 := lineStep_ok_of_key _ _ _ _ _ (by rw [hk]; exact authKey_ne_nil) hstep
        rw [k2 hall, hc2, assign, if_neg (by rw [hk]; exact authKey_ne_fileKey), if_pos hk]

theorem LoadUserConfigurations_ok_loop (home data : Str) (configs : UserConfigurations)
    (h : LoadUserConfigurations (fileEnv home data) = .ok configs) :
    lineLoop home { vpnPath := EMPTY_STRING, vpnAuthFilePath := EMPTY_STRING } 0
      (SplitLines data) = .ok configs := by
  simp only [LoadUserConfigurations, fileEnv, loadFromData] at h
  cases hl : lineLoop home { vpnPath := EMPTY_STRING, vpnAuthFilePath := EMPTY_STRING } 0
    (SplitLines data) with
  | ok c =>
    rw [hl] at h
    simp only [] at h
    split at h
    · cases h
    · exact h
  | error msg => rw [hl] at h; cases h
  | panic => rw [hl] at h; cases h

theorem ReplaceFirst_not_mem (value : Str) (old : Char) (new : Str) (h : old ∉ value) :
    ReplaceFirst value old new = value := by
  induction value with
  | nil => rfl
  | cons c cs ih =>
    have hc : ¬ c = old := fun hc => h (by simp [hc])
    have hcs : old ∉ cs := fun hm => h (List.mem_cons_of_mem _ hm)
    rw [ReplaceFirst, if_neg hc, ih hcs]

theorem ReplaceFirst_expandHome (userHomeDir value : Str)
    (h : value.head? = some '~' ∨ '~' ∉ value) :
    ReplaceFirst value '~' userHomeDir = expandHome userHomeDir value := by
  cases value with
  | nil => rfl
  | cons c cs =>
    by_cases hc : c = '~'
    · subst hc; simp [ReplaceFirst, expandHome]
    · have hmem : '~' ∉ c :: cs := by
        rcases h with h | h
        · simp only [List.head?_cons, Option.some.injEq] at h; exact absurd h hc
        · exact h
      rw [ReplaceFirst_not_mem _ _ _ hmem]
      unfold expandHome
      split
      · rename_i heq; injection heq with h1 _; exact absurd h1 hc
      · rfl

/-- When `~` is leading or absent, the last `vpn_file_path` value is stored
with the leading `~` replaced by the home directory, and as written when it
contains no `~`. -/
theorem LoadUserConfigurations_vpnPath (home data : Str) (configs : UserConfigurations)
    (pre post : List Str) (line : Str)
    (hload : LoadUserConfigurations (fileEnv home data) = .ok configs)
    (hsplit : SplitLines data = pre ++ line :: post)
    (hkey : lineKey line = vpnFilePathConfigKey)
    (hlast : ∀ x ∈ post, lineKey x ≠ vpnFilePathConfigKey)
    (htilde : (lineValue line).head? = some '~' ∨ '~' ∉ lineValue line) :
    configs.vpnPath = expandHome home (lineValue line) := by
  have hloop := LoadUserConfigurations_ok_loop home data configs hload
  rw [hsplit] at hloop
  rw [(lineLoop_last_value home pre post line _ _ _ hloop).1 hkey hlast,
    ReplaceFirst_expandHome _ _ htilde]

theorem Start_cmd_args (v : VPNManager) (configs : UserConfigurations) (env : SpawnEnv) :
    (v.Start configs env).1.cmd.map Cmd.args = some (startArgv configs) := by
  unfold VPNManager.Start
  cases env.stdoutPipeErr <;> cases env.stderrPipeErr <;> cases env.startErr <;> rfl

/-! ## Theorems: the claims about the configuration loader -/

theorem LoadUserConfigurations_panic_first (home data line : Str) (rest : List Str)
    (hsplit : SplitLines data = line :: rest)
    (hstep : lineStep home { vpnPath := EMPTY_STRING, vpnAuthFilePath := EMPTY_STRING } 0
      line = .panic) :
    LoadUserConfigurations (fileEnv home data) = .panic := by
  simp only [LoadUserConfigurations, fileEnv, loadFromData, hsplit, lineLoop, hstep]

/-- C10: on the one-line configuration `vpn_file_path = "` the loop slices
`value[1:0]` and panics; the loader returns neither a record nor an error. -/
theorem LoadUserConfigurations_lone_quote_panics (home : Str) :
    LoadUserConfigurations (fileEnv home "vpn_file_path = \"".toList) = .panic := by
  have hsplit : SplitLines "vpn_file_path = \"".toList = ["vpn_file_path = \"".toList] := by
    decide
  have hstep := (lineStep_panic_iff home
    { vpnPath := EMPTY_STRING, vpnAuthFilePath := EMPTY_STRING } 0
    "vpn_file_path = \"".toList).mpr (by decide)
  exact LoadUserConfigurations_panic_first home _ _ _ hsplit hstep

/-- C5: the text `vpn_file_path = "` followed by the line `oops`, which has
no `=`, makes the loader panic on line 1; no error naming line 2 is
returned. -/
theorem LoadUserConfigurations_malformed_after_quote_panics (home : Str) :
    Malformed "oops".toList ∧
    SplitLines "vpn_file_path = \"\noops".toList =
      ["vpn_file_path = \"".toList, "oops".toList] ∧
    LoadUserConfigurations (fileEnv home "vpn_file_path = \"\noops".toList) = .panic := by
  have hsplit : SplitLines "vpn_file_path = \"\noops".toList =
      ["vpn_file_path = \"".toList, "oops".toList] := by decide
  have hstep := (lineStep_panic_iff home
    { vpnPath := EMPTY_STRING, vpnAuthFilePath := EMPTY_STRING } 0
    "vpn_file_path = \"".toList).mpr (by decide)
  exact ⟨⟨by decide, Or.inl (by decide)⟩, hsplit,
    LoadUserConfigurations_panic_first home _ _ _ hsplit hstep⟩

/-- C6: the value `/srv/~backup/client.conf` is not stored as written: the
`~` in the middle of the path is replaced by the home directory. -/
theorem LoadUserConfigurations_inner_tilde_replaced :
    LoadUserConfigurations
        (fileEnv "/home/u".toList "vpn_file_path = /srv/~backup/client.conf".toList) =
      .ok { vpnPath := "/srv//home/ubackup/client.conf".toList,
            vpnAuthFilePath := EMPTY_STRING } ∧
    lineValue "vpn_file_path = /srv/~backup/client.conf".toList =
      "/srv/~backup/client.conf".toList ∧
    expandHome "/home/u".toList "/srv/~backup/client.conf".toList =
      "/srv/~backup/client.conf".toList := by
  decide

/-- C7, as stated, fails: a configuration that sets `vpn_auth_file_path`
to `<empty>` loads, and the launch command line has no `--auth-user-pass`;
one that sets it to `~/vpn/auth.txt` passes the expanded path, not the
configured text. -/
theorem auth_flag_counterexample :
    (LoadUserConfigurations (fileEnv "/home/u".toList sentinelConfigText) =
        .ok clientConfigs ∧
      lineKey "vpn_auth_file_path = <empty>".toList = vpnAuthFilePathConfigKey ∧
      lineValue "vpn_auth_file_path = <empty>".toList = "<empty>".toList ∧
      "--auth-user-pass".toList ∉ startArgv clientConfigs) ∧
    (LoadUserConfigurations (fileEnv "/home/u".toList authConfigText) = .ok authConfigs ∧
      lineValue "vpn_auth_file_path = \"~/vpn/auth.txt\"".toList = "~/vpn/auth.txt".toList ∧
      "~/vpn/auth.txt".toList ∉ startArgv authConfigs) := by
  decide

/-- C7, amended: `Start` builds `sudo openvpn --config vpnPath`, followed by
`--auth-user-pass vpnAuthFilePath` exactly when `vpnAuthFilePath` is not the
sentinel `<empty>`; and when the record was loaded from a text whose last
`vpn_auth_file_path` line has value `p`, with `~` leading or absent, the
command line ends with `--auth-user-pass q` for `q` the value `p` with its
leading `~` expanded, provided `q` is not `<empty>`. -/
theorem Start_argv_from_config (v : VPNManager) (env : SpawnEnv)
    (configs : UserConfigurations) :
    ((v.Start configs env).1.cmd.map Cmd.args =
      some (if configs.vpnAuthFilePath ≠ EMPTY_STRING then
          ["sudo".toList, "openvpn".toList, "--config".toList, configs.vpnPath,
            "--auth-user-pass".toList, configs.vpnAuthFilePath]
        else ["sudo".toList, "openvpn".toList, "--config".toList, configs.vpnPath])) ∧
    ∀ (home data : Str) (pre post : List Str) (line : Str),
      LoadUserConfigurations (fileEnv home data) = .ok configs →
      SplitLines data = pre ++ line :: post →
      lineKey line = vpnAuthFilePathConfigKey →
      (∀ x ∈ post, lineKey x ≠ vpnAuthFilePathConfigKey) →
      ((lineValue line).head? = some '~' ∨ '~' ∉ lineValue line) →
      expandHome home (lineValue line) ≠ EMPTY_STRING →
      (v.Start configs env).1.cmd.map Cmd.args =
        some ["sudo".toList, "openvpn".toList, "--config".toList, configs.vpnPath,
          "--auth-user-pass".toList, expandHome home (lineValue line)] := by
  have hargv : startArgv configs =
      if configs.vpnAuthFilePath ≠ EMPTY_STRING then
        ["sudo".toList, "openvpn".toList, "--config".toList, configs.vpnPath,
          "--auth-user-pass".toList, configs.vpnAuthFilePath]
      else ["sudo".toList, "openvpn".toList, "--config".toList, configs.vpnPath] := by
    unfold startArgv
    by_cases h : configs.vpnAuthFilePath = EMPTY_STRING
    · simp only [ne_eq, h, not_true_eq_false, if_false]; rfl
    · simp only [ne_eq, h, not_false_eq_true, if_true]; rfl
  refine ⟨by rw [Start_cmd_args, hargv], ?_⟩
  intro home data pre post line hload hsplit hkey hlast htilde hsent
  have hloop := LoadUserConfigurations_ok_loop home data configs hload
  rw [hsplit] at hloop
  have hauth : configs.vpnAuthFilePath = expandHome home (lineValue line) := by
    rw [(lineLoop_last_value home pre post line _ _ _ hloop).2 hkey hlast,
      ReplaceFirst_expandHome _ _ htilde]
  rw [Start_cmd_args, hargv, if_pos (by rw [hauth]; exact hsent), hauth]

theorem Start_argv_from_config_witness :
    (startedVPN.Start authConfigs spawnOk).1.cmd.map Cmd.args =
      some ["sudo".toList, "openvpn".toList, "--config".toList, authConfigs.vpnPath,
        "--auth-user-pass".toList,
        expandHome "/home/u".toList
          (lineValue "vpn_auth_file_path = \"~/vpn/auth.txt\"".toList)] :=
  (Start_argv_from_config startedVPN spawnOk authConfigs).2 "/home/u".toList authConfigText
    ["vpn_file_path = /etc/vpn/client.conf".toList] []
    "vpn_auth_file_path = \"~/vpn/auth.txt\"".toList
    (by decide) (by decide) (by decide) (by simp) (Or.inl (by decide)) (by decide)

theorem LoadUserConfigurations_first_malformed_example :
    ∃ msg, LoadUserConfigurations (fileEnv "/home/u".toList
        "vpn_file_path = /etc/vpn/client.conf\n\n= x\noops".toList) = .error msg ∧
      ("line ".toList ++ fmtInt 3 ++ ":".toList) <+: msg :=
  LoadUserConfigurations_first_malformed "/home/u".toList
    "vpn_file_path = /etc/vpn/client.conf\n\n= x\noops".toList
    ["vpn_file_path = /etc/vpn/client.conf".toList, []] ["oops".toList] "= x".toList
    (by decide)
    (by
      intro x hx
      simp only [List.mem_cons, List.mem_singleton, List.not_mem_nil, or_false] at hx
      rcases hx with h | h <;> subst h
      · exact ⟨fun hm => by
          rcases hm.2 with h | h | h
          · exact h (by decide)
          · exact absurd h (by decide)
          · exact absurd h (by decide), by decide⟩
      · exact ⟨fun hm => hm.1 (by decide), by decide⟩)
    ⟨by decide, Or.inr (Or.inl (by decide))⟩

theorem LoadUserConfigurations_vpnPath_example :
    authConfigs.vpnPath =
      expandHome "/home/u".toList (lineValue "vpn_file_path = /etc/vpn/client.conf".toList) :=
  LoadUserConfigurations_vpnPath "/home/u".toList authConfigText authConfigs []
    ["vpn_auth_file_path = \"~/vpn/auth.txt\"".toList]
    "vpn_file_path = /etc/vpn/client.conf".toList
    (by decide) (by decide) (by decide)
    (by
      intro x hx
      simp only [List.mem_singleton] at hx
      subst hx
      decide)
    (Or.inr (by decide))

end Uvn
